import Mathlib

/-!
Shallow embedding of the conversation-orchestration core of the
`natureuphealthv3` repository:

* `src/supabase/functions/health-coach-assistant/index.ts`
* `src/supabase/functions/excursion-creator-assistant/index.ts`
* `src/lib/assistants-api.ts` (client SDK queries)

The two Deno edge functions are orchestration over an external assistant
API and a relational store.  Their effects are modelled explicitly:

* the store is a `DBState` (lists of conversation and message rows), and
  every insert appends a row;
* every call to the remote assistant service is recorded as a
  `RemoteEvent` in an event trace, in program order;
* all responses of the external world (auth, store errors, remote
  responses, poll statuses) are supplied by a `RemoteOracle`, so the
  handlers are pure functions of request, environment, oracle, and
  initial store state.

JavaScript truthiness of optional strings (`if (x)`) is modelled by
`strTruthy`; an absent and an empty `message` both fail the `!message`
check, so the message is a plain `String` with `""` for both.
-/

namespace NatureUp

/-- JS truthiness of an optional string: `undefined` and `""` are falsy. -/
def strTruthy : Option String → Bool
  | none => false
  | some s => s != ""

/-- A row of the `conversations` table, as the edge functions see it
(`id`, `user_id`, `assistant_type`, `thread_id`; the timestamp columns
are never read by the handlers). -/
structure ConvRow where
  id : String
  user_id : String
  assistant_type : String
  thread_id : String
deriving Repr, DecidableEq

/-- A row of the `messages` table as written by the edge functions
(`conversation_id`, `role`, `content`). -/
structure MsgRow where
  conversation_id : String
  role : String
  content : String
deriving Repr, DecidableEq

/-- The persistent store: the two tables the handlers touch. -/
structure DBState where
  conversations : List ConvRow
  messages : List MsgRow
deriving Repr, DecidableEq

/-- One content part of a remote thread message (`content[i].type`,
`content[i].text.value`). -/
structure ContentPart where
  ctype : String
  text : String
deriving Repr, DecidableEq

/-- A message returned by the remote list-messages call
(`messagesData.data[i]`). -/
structure RemoteMsg where
  role : String
  content : List ContentPart
deriving Repr, DecidableEq

/-- The user-context enrichment payload of an excursion request
(`ExcursionRequest.userContext`).  The numeric coordinates are never read
by the handler (only `location.address` is), so they are not modelled. -/
structure LocationCtx where
  address : Option String
deriving Repr, DecidableEq

/-- `ExcursionRequest.userContext`.  An absent array and an empty array
behave identically under `?.length` truthiness, so lists default to `[]`. -/
structure UserContext where
  healthGoals : List String
  mobilityLevel : Option String
  preferredActivities : List String
  location : Option LocationCtx
deriving Repr, DecidableEq

/-- The inbound HTTP request as the handlers consume it: method,
`Authorization` header, and the parsed JSON body fields.  The client SDK
always serialises `userContext` into the body; the health-coach handler
simply never destructures it. -/
structure RawRequest where
  method : String
  authHeader : Option String
  message : String
  conversationId : Option String
  userContext : Option UserContext
deriving Repr, DecidableEq

/-- The environment configuration (`Deno.env`). -/
structure Env where
  openaiApiKey : Option String
  healthCoachAssistantId : Option String
  excursionCreatorAssistantId : Option String
deriving Repr, DecidableEq

/-- One call to the remote assistant service, recorded in program order. -/
inductive RemoteEvent
  | createThread
  | appendMessage (threadId : String) (content : String)
  | createRun (threadId : String) (assistantId : String)
  | pollStatus (threadId : String) (runId : String)
  | listMessages (threadId : String)
deriving Repr, DecidableEq

/-- Responses of the external world for one request: auth result, store
read/write outcomes, and remote assistant responses.  `none` / `.error`
model a failed (non-ok) response; poll statuses are indexed by the value
of the `attempts` counter at the time of the poll. -/
structure RemoteOracle where
  getUserResp : Option String
  convQueryError : Option String
  createThreadResp : Option String
  insertConvResp : Except String String
  insertUserMsgErr : Option String
  addMessageOk : Bool
  createRunResp : Option (String × String)
  pollResp : Nat → Option String
  listMessagesResp : Option (List RemoteMsg)
  insertAsstMsgErr : Option String

/-- The successful response payload (`ChatResponse` / `ExcursionResponse`
without the never-set `excursionData`). -/
structure Success where
  response : String
  conversationId : String
  threadId : String
deriving Repr, DecidableEq

/-- The JSON body of an HTTP response from the handlers. -/
inductive RespBody
  | empty
  | success (response : String) (conversationId : String) (threadId : String)
  | error (msg : String)
deriving Repr, DecidableEq

/-- An HTTP response: status code and JSON body. -/
structure HttpResponse where
  status : Nat
  body : RespBody
deriving Repr, DecidableEq

/-- The full observable outcome of serving one request: the HTTP
response, the final store state and the trace of remote calls. -/
structure ServeOutcome where
  resp : HttpResponse
  db : DBState
  events : List RemoteEvent
deriving Repr, DecidableEq

/-- `maxAttempts` of the poll loop in both edge functions. -/
def maxAttempts : Nat := 30

/-- Outcome of the run-poll loop (lines 207-239 of the health-coach
handler, 216-248 of the excursion handler). -/
inductive PollResult
  | completedOk
  | terminalFailure (status : String)
  | checkFailed
  | timedOut
deriving Repr, DecidableEq

/-- The `while (runStatus !== "completed" && attempts < maxAttempts)`
loop, as a fuel recursion: `fuel` stands for `maxAttempts - attempts`,
so `attempts < maxAttempts` is exactly `fuel > 0`.  Each iteration
performs one status poll (`poll attempts`), a non-ok poll response
throws `checkFailed`, a polled `failed`/`cancelled`/`expired` throws
`terminalFailure` immediately, and falling out of the loop with a
status other than `completed` throws `timedOut`.  Returns the outcome
together with the number of status polls performed. -/
def pollLoopAux (poll : Nat → Option String) :
    Nat → String → Nat → PollResult × Nat
  | 0, runStatus, _ =>
    if runStatus == "completed" then (.completedOk, 0) else (.timedOut, 0)
  | fuel + 1, runStatus, attempts =>
    if runStatus == "completed" then (.completedOk, 0)
    else
      match poll attempts with
      | none => (.checkFailed, 1)
      | some s =>
        if s == "failed" || s == "cancelled" || s == "expired" then
          (.terminalFailure s, 1)
        else
          let r := pollLoopAux poll fuel s (attempts + 1)
          (r.1, r.2 + 1)

/-- The poll loop as entered by the handlers: `attempts = 0`,
`runStatus` taken from the create-run response. -/
def pollLoop (poll : Nat → Option String) (runStatus : String) :
    PollResult × Nat :=
  pollLoopAux poll maxAttempts runStatus 0

/-- The create-thread + insert-conversation block.  Both handlers contain
this block verbatim twice (no conversation id supplied, and supplied id
not found); they differ only in the `assistant_type` value inserted.
A non-ok create-thread response throws `Failed to create OpenAI thread`;
a failed insert re-throws the store error.  On success, returns the new
thread id and new conversation id, and appends the conversation row. -/
def createThreadAndConversation (oracle : RemoteOracle) (uid : String)
    (assistantType : String) (db : DBState) :
    Except String (String × String) × DBState × List RemoteEvent :=
  match oracle.createThreadResp with
  | none => (.error "Failed to create OpenAI thread", db, [.createThread])
  | some tid =>
    match oracle.insertConvResp with
    | .error m => (.error m, db, [.createThread])
    | .ok nid =>
      (.ok (tid, nid),
       { db with conversations :=
           db.conversations ++ [⟨nid, uid, assistantType, tid⟩] },
       [.createThread])

/-- Conversation resolution (health-coach lines 63-143, excursion lines
69-144).  If a truthy conversation id is supplied, the store is queried
for a row with that `id` AND `user_id = uid` (`maybeSingle`); a found
row is reused, otherwise — and also when no id is supplied — a new
thread and conversation are created.  Returns `(threadId,
dbConversationId)`. -/
def resolveConversation (oracle : RemoteOracle) (uid : String)
    (assistantType : String) (conversationId : Option String)
    (db : DBState) :
    Except String (String × String) × DBState × List RemoteEvent :=
  match conversationId with
  | some cid =>
    if cid != "" then
      match oracle.convQueryError with
      | some m => (.error m, db, [])
      | none =>
        match db.conversations.find?
            (fun c => c.id == cid && c.user_id == uid) with
        | some conv => (.ok (conv.thread_id, conv.id), db, [])
        | none => createThreadAndConversation oracle uid assistantType db
    else createThreadAndConversation oracle uid assistantType db
  | none => createThreadAndConversation oracle uid assistantType db

/-- The context lines built by the excursion handler (lines 158-163):
the four candidate entries with JS truthiness, `filter(Boolean)`
rendered as conditional singletons. -/
def contextInfo (uc : UserContext) : List String :=
  (if uc.healthGoals.length != 0 then
     ["Health Goals: " ++ String.intercalate ", " uc.healthGoals] else [])
  ++ (if strTruthy uc.mobilityLevel then
     ["Mobility Level: " ++ uc.mobilityLevel.getD ""] else [])
  ++ (if uc.preferredActivities.length != 0 then
     ["Preferred Activities: " ++
        String.intercalate ", " uc.preferredActivities] else [])
  ++ (match uc.location with
      | some loc =>
        if strTruthy loc.address then
          ["Location: " ++ loc.address.getD ""] else []
      | none => [])

/-- `messageContent` of the excursion handler (lines 156-168): the
message sent to the remote thread, enriched with the user-context
annotation when a context with at least one populated field is
supplied; otherwise the original message. -/
def enrichMessage (message : String) (uc : Option UserContext) : String :=
  match uc with
  | none => message
  | some uc =>
    let ci := contextInfo uc
    if ci.length > 0 then
      message ++ "\n\nUser Context:\n" ++ String.intercalate "\n" ci
    else message

/-- The post-run tail shared verbatim by both handlers: list the thread
messages, take the first with role `assistant`, take its first `text`
content part, persist it as an `assistant` row, and build the success
payload.  `db` and `tr` are the store state and trace at that point. -/
def retrieveAndPersistReply (oracle : RemoteOracle)
    (threadId dbConversationId : String) (db : DBState)
    (tr : List RemoteEvent) :
    Except String Success × DBState × List RemoteEvent :=
  let tr5 := tr ++ [.listMessages threadId]
  match oracle.listMessagesResp with
  | none => (.error "Failed to retrieve messages", db, tr5)
  | some msgs =>
    match msgs.find? (fun m => m.role == "assistant") with
    | none => (.error "No assistant response found", db, tr5)
    | some am =>
      match am.content.find? (fun c => c.ctype == "text") with
      | none => (.error "No text content in assistant response", db, tr5)
      | some tc =>
        match oracle.insertAsstMsgErr with
        | some m => (.error m, db, tr5)
        | none =>
          (.ok ⟨tc.text, dbConversationId, threadId⟩,
           { db with messages :=
               db.messages ++ [⟨dbConversationId, "assistant", tc.text⟩] },
           tr5)

/-- The body of the health-coach handler's `try` block
(`src/supabase/functions/health-coach-assistant/index.ts`, lines
29-291), as a pure function.  Errors carry the thrown message; the
final store state and remote-call trace are returned on every path. -/
def healthCoachCore (req : RawRequest) (env : Env)
    (oracle : RemoteOracle) (db : DBState) :
    Except String Success × DBState × List RemoteEvent :=
  if !(strTruthy req.authHeader) then
    (.error "No authorization header", db, [])
  else
    match oracle.getUserResp with
    | none => (.error "Unauthorized", db, [])
    | some uid =>
      if req.message == "" then (.error "Message is required", db, [])
      else if !(strTruthy env.openaiApiKey) then
        (.error "OpenAI API key not configured", db, [])
      else
        match resolveConversation oracle uid "health_coach"
            req.conversationId db with
        | (.error m, db1, tr1) => (.error m, db1, tr1)
        | (.ok (threadId, dbConversationId), db1, tr1) =>
          match oracle.insertUserMsgErr with
          | some m => (.error m, db1, tr1)
          | none =>
            let db2 := { db1 with messages :=
                db1.messages ++ [⟨dbConversationId, "user", req.message⟩] }
            let tr2 := tr1 ++ [.appendMessage threadId req.message]
            if !oracle.addMessageOk then
              (.error "Failed to add message to thread", db2, tr2)
            else
              match env.healthCoachAssistantId with
              | none =>
                (.error "Health Coach Assistant ID not configured", db2, tr2)
              | some assistantId =>
                if assistantId == "" then
                  (.error "Health Coach Assistant ID not configured", db2, tr2)
                else
                  let tr3 := tr2 ++ [.createRun threadId assistantId]
                  match oracle.createRunResp with
                  | none => (.error "Failed to run assistant", db2, tr3)
                  | some (runId, initialStatus) =>
                    let pr := pollLoop oracle.pollResp initialStatus
                    let tr4 := tr3 ++
                      List.replicate pr.2 (.pollStatus threadId runId)
                    match pr.1 with
                    | .checkFailed =>
                      (.error "Failed to check run status", db2, tr4)
                    | .terminalFailure s =>
                      (.error ("Assistant run " ++ s), db2, tr4)
                    | .timedOut =>
                      (.error "Assistant run timed out", db2, tr4)
                    | .completedOk =>
                      retrieveAndPersistReply oracle threadId
                        dbConversationId db2 tr4

/-- The body of the excursion-creator handler's `try` block
(`src/supabase/functions/excursion-creator-assistant/index.ts`, lines
40-297).  Identical to the health-coach core except: assistant type
`excursion_creator`, the user-context enrichment of the remote-bound
message (the persisted row stores the original `message`), and the
`EXCURSION_CREATOR_ASSISTANT_ID` configuration. -/
def excursionCore (req : RawRequest) (env : Env)
    (oracle : RemoteOracle) (db : DBState) :
    Except String Success × DBState × List RemoteEvent :=
  if !(strTruthy req.authHeader) then
    (.error "No authorization header", db, [])
  else
    match oracle.getUserResp with
    | none => (.error "Unauthorized", db, [])
    | some uid =>
      if req.message == "" then (.error "Message is required", db, [])
      else if !(strTruthy env.openaiApiKey) then
        (.error "OpenAI API key not configured", db, [])
      else
        match resolveConversation oracle uid "excursion_creator"
            req.conversationId db with
        | (.error m, db1, tr1) => (.error m, db1, tr1)
        | (.ok (threadId, dbConversationId), db1, tr1) =>
          match oracle.insertUserMsgErr with
          | some m => (.error m, db1, tr1)
          | none =>
            let db2 := { db1 with messages :=
                db1.messages ++ [⟨dbConversationId, "user", req.message⟩] }
            let messageContent := enrichMessage req.message req.userContext
            let tr2 := tr1 ++ [.appendMessage threadId messageContent]
            if !oracle.addMessageOk then
              (.error "Failed to add message to thread", db2, tr2)
            else
              match env.excursionCreatorAssistantId with
              | none =>
                (.error "Excursion Creator Assistant ID not configured",
                 db2, tr2)
              | some assistantId =>
                if assistantId == "" then
                  (.error "Excursion Creator Assistant ID not configured",
                   db2, tr2)
                else
                  let tr3 := tr2 ++ [.createRun threadId assistantId]
                  match oracle.createRunResp with
                  | none => (.error "Failed to run assistant", db2, tr3)
                  | some (runId, initialStatus) =>
                    let pr := pollLoop oracle.pollResp initialStatus
                    let tr4 := tr3 ++
                      List.replicate pr.2 (.pollStatus threadId runId)
                    match pr.1 with
                    | .checkFailed =>
                      (.error "Failed to check run status", db2, tr4)
                    | .terminalFailure s =>
                      (.error ("Assistant run " ++ s), db2, tr4)
                    | .timedOut =>
                      (.error "Assistant run timed out", db2, tr4)
                    | .completedOk =>
                      retrieveAndPersistReply oracle threadId
                        dbConversationId db2 tr4

/-- The full health-coach endpoint: OPTIONS preflight answered 200, the
`try` body on success serialised as 200 JSON, and the `catch` block
(lines 299-313) normalising every thrown error to status 500 with body
`{ error: message }`. -/
def healthCoachServe (req : RawRequest) (env : Env)
    (oracle : RemoteOracle) (db : DBState) : ServeOutcome :=
  if req.method == "OPTIONS" then ⟨⟨200, .empty⟩, db, []⟩
  else
    match healthCoachCore req env oracle db with
    | (.ok s, db1, tr) =>
      ⟨⟨200, .success s.response s.conversationId s.threadId⟩, db1, tr⟩
    | (.error m, db1, tr) => ⟨⟨500, .error m⟩, db1, tr⟩

/-- The full excursion-creator endpoint (same envelope as the
health-coach endpoint, lines 305-319 for the catch block). -/
def excursionServe (req : RawRequest) (env : Env)
    (oracle : RemoteOracle) (db : DBState) : ServeOutcome :=
  if req.method == "OPTIONS" then ⟨⟨200, .empty⟩, db, []⟩
  else
    match excursionCore req env oracle db with
    | (.ok s, db1, tr) =>
      ⟨⟨200, .success s.response s.conversationId s.threadId⟩, db1, tr⟩
    | (.error m, db1, tr) => ⟨⟨500, .error m⟩, db1, tr⟩

/-- A `conversations` row as the client SDK reads it; timestamps are
modelled as abstract instants (`Nat`). -/
structure Conversation where
  id : String
  user_id : String
  assistant_type : String
  thread_id : String
  created_at : Nat
  updated_at : Nat
deriving Repr, DecidableEq

/-- A `messages` row as the client SDK reads it. -/
structure StoredMessage where
  id : String
  conversation_id : String
  role : String
  content : String
  created_at : Nat
deriving Repr, DecidableEq

/-- `AssistantsAPI.getConversations` (src/lib/assistants-api.ts, lines
90-107): the store query over the caller-visible rows — an optional
equality filter on `assistant_type`, ordered by `updated_at`
descending. -/
def getConversations (rows : List Conversation)
    (assistantType : Option String) : List Conversation :=
  let filtered : List Conversation :=
    match assistantType with
    | some t => rows.filter (fun c => c.assistant_type == t)
    | none => rows
  filtered.insertionSort (fun a b => b.updated_at ≤ a.updated_at)

/-- `AssistantsAPI.getMessages` (src/lib/assistants-api.ts, lines
109-121): the rows of one conversation, ordered by `created_at`
ascending. -/
def getMessages (rows : List StoredMessage)
    (conversationId : String) : List StoredMessage :=
  (rows.filter (fun m => m.conversation_id == conversationId)).insertionSort
    (fun a b => a.created_at ≤ b.created_at)

/-- A run status on which the poll loop keeps waiting: neither
`completed` nor one of the three terminal-failure statuses. -/
def nonTerminalStatus (s : String) : Prop :=
  s ≠ "completed" ∧ s ≠ "failed" ∧ s ≠ "cancelled" ∧ s ≠ "expired"

instance (s : String) : Decidable (nonTerminalStatus s) := by
  unfold nonTerminalStatus
  infer_instance

instance : IsTotal Conversation (fun a b => b.updated_at ≤ a.updated_at) :=
  ⟨fun a b => Nat.le_total b.updated_at a.updated_at⟩

instance : IsTrans Conversation (fun a b => b.updated_at ≤ a.updated_at) :=
  ⟨fun _ _ _ h1 h2 => Nat.le_trans h2 h1⟩

instance : IsTotal StoredMessage (fun a b => a.created_at ≤ b.created_at) :=
  ⟨fun a b => Nat.le_total a.created_at b.created_at⟩

instance : IsTrans StoredMessage (fun a b => a.created_at ≤ b.created_at) :=
  ⟨fun _ _ _ h1 h2 => Nat.le_trans h1 h2⟩

/-- Fixture: empty store. -/
def db0 : DBState := ⟨[], []⟩

/-- Fixture: store holding another user's conversation `c9`. -/
def dbOther : DBState := ⟨[⟨"c9", "mallory", "health_coach", "t9"⟩], []⟩

/-- Fixture: fully configured environment. -/
def env0 : Env := ⟨some "sk-key", some "asst-hc", some "asst-ex"⟩

/-- Fixture: plain POST request with no conversation id. -/
def req0 : RawRequest := ⟨"POST", some "Bearer tok", "hi", none, none⟩

/-- Fixture: user context carrying only a location address. -/
def uc0 : UserContext := ⟨[], none, [], some ⟨some "Santa Monica"⟩⟩

/-- Fixture: request carrying a user context. -/
def reqCtx : RawRequest :=
  ⟨"POST", some "Bearer tok", "Plan a beach day", none, some uc0⟩

/-- Fixture: request with an empty message. -/
def reqEmpty : RawRequest := ⟨"POST", some "Bearer tok", "", none, none⟩

/-- Fixture: request supplying the conversation id `c9`. -/
def reqConv : RawRequest := ⟨"POST", some "Bearer tok", "hi", some "c9", none⟩

/-- Fixture: an oracle on which every step succeeds (one poll returning
`completed`). -/
def oracleHappy : RemoteOracle :=
  ⟨some "u1", none, some "t1", .ok "c1", none, true, some ("r1", "queued"),
   fun _ => some "completed",
   some [⟨"assistant", [⟨"text", "hello!"⟩]⟩], none⟩

/-- Fixture: an oracle whose run never leaves `in_progress`. -/
def oracleTimeout : RemoteOracle :=
  { oracleHappy with pollResp := fun _ => some "in_progress" }

/-- Fixture: an oracle whose first poll reports `failed`. -/
def oracleTerminal : RemoteOracle :=
  { oracleHappy with pollResp := fun _ => some "failed" }

/-- Fixture: an oracle whose append-message call fails. -/
def oracleAppendFail : RemoteOracle :=
  { oracleHappy with addMessageOk := false }

/-- Fixture: an oracle whose create-run response already reports
`completed`. -/
def oracleRunDone : RemoteOracle :=
  { oracleHappy with createRunResp := some ("r1", "completed") }

theorem pollLoopAux_count_le (poll : Nat → Option String) :
    ∀ (fuel : Nat) (s : String) (a : Nat),
      (pollLoopAux poll fuel s a).2 ≤ fuel := by
  intro fuel
  induction fuel with
  | zero =>
    intro s a
    unfold pollLoopAux
    split <;> simp
  | succ n ih =>
    intro s a
    unfold pollLoopAux
    split
    · simp
    · cases hp : poll a with
      | none => simp
      | some s' =>
        simp only
        split
        · simp
        · simpa using Nat.succ_le_succ (ih s' (a + 1))

theorem pollLoopAux_timeout (poll : Nat → Option String) :
    ∀ (fuel : Nat) (s : String) (a : Nat),
      s ≠ "completed" →
      (∀ i, i < a + fuel → ∃ s', poll i = some s' ∧ nonTerminalStatus s') →
      pollLoopAux poll fuel s a = (.timedOut, fuel) := by
  intro fuel
  induction fuel with
  | zero =>
    intro s a hs _
    unfold pollLoopAux
    simp [hs]
  | succ n ih =>
    intro s a hs hpoll
    obtain ⟨s', hps', hnt⟩ := hpoll a (by omega)
    have hb : (s == "completed") = false := by simp [hs]
    have hb1 : (s' == "failed") = false := by simp [hnt.2.1]
    have hb2 : (s' == "cancelled") = false := by simp [hnt.2.2.1]
    have hb3 : (s' == "expired") = false := by simp [hnt.2.2.2]
    have hrec : pollLoopAux poll n s' (a + 1) = (.timedOut, n) := by
      refine ih s' (a + 1) hnt.1 ?_
      intro i hi
      exact hpoll i (by omega)
    unfold pollLoopAux
    simp [hb, hps', hb1, hb2, hb3, hrec]

theorem resolveConversation_messages_eq (oracle : RemoteOracle)
    (uid assistantType : String) (cid : Option String) (db : DBState) :
    ((resolveConversation oracle uid assistantType cid db).2.1).messages
      = db.messages := by
  unfold resolveConversation createThreadAndConversation
  rcases cid with _ | c <;> repeat' split
  all_goals rfl

theorem resolveConversation_events_or (oracle : RemoteOracle)
    (uid assistantType : String) (cid : Option String) (db : DBState) :
    (resolveConversation oracle uid assistantType cid db).2.2 = []
      ∨ (resolveConversation oracle uid assistantType cid db).2.2
          = [.createThread] := by
  unfold resolveConversation createThreadAndConversation
  rcases cid with _ | c <;> repeat' split
  all_goals simp

theorem retrieveAndPersistReply_events (oracle : RemoteOracle)
    (threadId dbConversationId : String) (db : DBState)
    (tr : List RemoteEvent) :
    (retrieveAndPersistReply oracle threadId dbConversationId db tr).2.2
      = tr ++ [.listMessages threadId] := by
  unfold retrieveAndPersistReply
  repeat' split
  all_goals rfl

theorem retrieveAndPersistReply_conversations (oracle : RemoteOracle)
    (threadId dbConversationId : String) (db : DBState)
    (tr : List RemoteEvent) :
    ((retrieveAndPersistReply oracle threadId dbConversationId db
        tr).2.1).conversations = db.conversations := by
  unfold retrieveAndPersistReply
  repeat' split
  all_goals rfl

theorem retrieveAndPersistReply_filter_user (oracle : RemoteOracle)
    (threadId dbConversationId : String) (db : DBState)
    (tr : List RemoteEvent) :
    ((retrieveAndPersistReply oracle threadId dbConversationId db
        tr).2.1).messages.filter (fun r => r.role == "user")
      = db.messages.filter (fun r => r.role == "user") := by
  unfold retrieveAndPersistReply
  repeat' split
  all_goals simp

theorem pollLoopAux_terminal (poll : Nat → Option String)
    (fuel : Nat) (s : String) (a : Nat) (t : String)
    (hs : s ≠ "completed") (hp : poll a = some t)
    (ht : t = "failed" ∨ t = "cancelled" ∨ t = "expired") :
    pollLoopAux poll (fuel + 1) s a = (.terminalFailure t, 1) := by
  have hb : (s == "completed") = false := by simp [hs]
  have htb : (t == "failed" || t == "cancelled" || t == "expired") = true := by
    rcases ht with h | h | h <;> simp [h]
  unfold pollLoopAux
  simp [hb, hp, htb]

theorem pollLoopAux_completed (poll : Nat → Option String)
    (fuel a : Nat) :
    pollLoopAux poll fuel "completed" a = (.completedOk, 0) := by
  cases fuel <;> simp [pollLoopAux]

theorem resolveConversation_append_not_mem (oracle : RemoteOracle)
    (uid assistantType : String) (cid : Option String) (db : DBState)
    (t c : String) :
    RemoteEvent.appendMessage t c ∉
      (resolveConversation oracle uid assistantType cid db).2.2 := by
  rcases resolveConversation_events_or oracle uid assistantType cid db
    with h | h <;> rw [h] <;> simp

theorem resolveConversation_fallback_create (oracle : RemoteOracle)
    (uid assistantType cid tid nid : String) (db : DBState)
    (hcid : cid ≠ "")
    (hnone : ∀ c ∈ db.conversations, ¬(c.id = cid ∧ c.user_id = uid))
    (hq : oracle.convQueryError = none)
    (hth : oracle.createThreadResp = some tid)
    (hic : oracle.insertConvResp = .ok nid) :
    resolveConversation oracle uid assistantType (some cid) db =
      (.ok (tid, nid),
       { db with conversations :=
           db.conversations ++ [⟨nid, uid, assistantType, tid⟩] },
       [.createThread]) := by
  have hcidb : (cid != "") = true := by simp [hcid]
  have hfind : db.conversations.find?
      (fun c => c.id == cid && c.user_id == uid) = none := by
    rw [List.find?_eq_none]
    intro c hc
    simpa using hnone c hc
  simp [resolveConversation, createThreadAndConversation, hcidb, hq,
    hfind, hth, hic]

theorem healthCoachServe_db (req : RawRequest) (env : Env)
    (oracle : RemoteOracle) (db : DBState)
    (hm : (req.method == "OPTIONS") = false) :
    (healthCoachServe req env oracle db).db
      = (healthCoachCore req env oracle db).2.1 := by
  unfold healthCoachServe
  rcases h : healthCoachCore req env oracle db with ⟨r, db1, tr⟩
  cases r <;> simp [hm, h]

theorem healthCoachServe_events (req : RawRequest) (env : Env)
    (oracle : RemoteOracle) (db : DBState)
    (hm : (req.method == "OPTIONS") = false) :
    (healthCoachServe req env oracle db).events
      = (healthCoachCore req env oracle db).2.2 := by
  unfold healthCoachServe
  rcases h : healthCoachCore req env oracle db with ⟨r, db1, tr⟩
  cases r <;> simp [hm, h]

theorem excursionServe_db (req : RawRequest) (env : Env)
    (oracle : RemoteOracle) (db : DBState)
    (hm : (req.method == "OPTIONS") = false) :
    (excursionServe req env oracle db).db
      = (excursionCore req env oracle db).2.1 := by
  unfold excursionServe
  rcases h : excursionCore req env oracle db with ⟨r, db1, tr⟩
  cases r <;> simp [hm, h]

theorem excursionServe_events (req : RawRequest) (env : Env)
    (oracle : RemoteOracle) (db : DBState)
    (hm : (req.method == "OPTIONS") = false) :
    (excursionServe req env oracle db).events
      = (excursionCore req env oracle db).2.2 := by
  unfold excursionServe
  rcases h : excursionCore req env oracle db with ⟨r, db1, tr⟩
  cases r <;> simp [hm, h]

theorem healthCoachCore_append_content (req : RawRequest) (env : Env)
    (oracle : RemoteOracle) (db : DBState) (t c : String) :
    RemoteEvent.appendMessage t c ∈ (healthCoachCore req env oracle db).2.2 →
    c = req.message := by
  unfold healthCoachCore
  by_cases hauth : (!strTruthy req.authHeader) = true
  · rw [if_pos hauth]
    simp
  · rw [if_neg hauth]
    cases ho : oracle.getUserResp with
    | none => simp
    | some u0 =>
      dsimp only
      by_cases hmsg : (req.message == "") = true
      · rw [if_pos hmsg]
        simp
      · rw [if_neg hmsg]
        by_cases hkey : (!strTruthy env.openaiApiKey) = true
        · rw [if_pos hkey]
          simp
        · rw [if_neg hkey]
          have hnm := resolveConversation_append_not_mem oracle u0
            "health_coach" req.conversationId db t c
          cases hres : resolveConversation oracle u0 "health_coach"
              req.conversationId db with
          | mk r rest =>
            rw [hres] at hnm
            obtain ⟨db1, tr1⟩ := rest
            cases r with
            | error m =>
              dsimp only
              dsimp only at hnm
              intro hmem
              exact absurd hmem hnm
            | ok pr =>
              obtain ⟨tid, cid⟩ := pr
              dsimp only
              dsimp only at hnm
              cases hins : oracle.insertUserMsgErr with
              | some m =>
                dsimp only
                intro hmem
                exact absurd hmem hnm
              | none =>
                dsimp only
                cases hamo : oracle.addMessageOk with
                | false =>
                  rw [if_pos (by decide)]
                  intro hmem
                  simp_all [List.mem_append]
                | true =>
                  rw [if_neg (by decide)]
                  cases haid : env.healthCoachAssistantId with
                  | none =>
                    dsimp only
                    intro hmem
                    simp_all [List.mem_append]
                  | some aid =>
                    dsimp only
                    by_cases haid2 : (aid == "") = true
                    · rw [if_pos haid2]
                      intro hmem
                      simp_all [List.mem_append]
                    · rw [if_neg haid2]
                      cases hcrr : oracle.createRunResp with
                      | none =>
                        dsimp only
                        intro hmem
                        simp_all [List.mem_append]
                      | some rp =>
                        obtain ⟨runId, initStatus⟩ := rp
                        dsimp only
                        cases hpl : (pollLoop oracle.pollResp initStatus).1 with
                        | completedOk =>
                          intro hmem
                          rw [retrieveAndPersistReply_events] at hmem
                          simp_all [List.mem_append, List.mem_replicate]
                        | terminalFailure s =>
                          intro hmem
                          simp_all [List.mem_append, List.mem_replicate]
                        | checkFailed =>
                          intro hmem
                          simp_all [List.mem_append, List.mem_replicate]
                        | timedOut =>
                          intro hmem
                          simp_all [List.mem_append, List.mem_replicate]

theorem excursionCore_append_content (req : RawRequest) (env : Env)
    (oracle : RemoteOracle) (db : DBState) (t c : String) :
    RemoteEvent.appendMessage t c ∈ (excursionCore req env oracle db).2.2 →
    c = enrichMessage req.message req.userContext := by
  unfold excursionCore
  by_cases hauth : (!strTruthy req.authHeader) = true
  · rw [if_pos hauth]
    simp
  · rw [if_neg hauth]
    cases ho : oracle.getUserResp with
    | none => simp
    | some u0 =>
      dsimp only
      by_cases hmsg : (req.message == "") = true
      · rw [if_pos hmsg]
        simp
      · rw [if_neg hmsg]
        by_cases hkey : (!strTruthy env.openaiApiKey) = true
        · rw [if_pos hkey]
          simp
        · rw [if_neg hkey]
          have hnm := resolveConversation_append_not_mem oracle u0
            "excursion_creator" req.conversationId db t c
          cases hres : resolveConversation oracle u0 "excursion_creator"
              req.conversationId db with
          | mk r rest =>
            rw [hres] at hnm
            obtain ⟨db1, tr1⟩ := rest
            cases r with
            | error m =>
              dsimp only
              dsimp only at hnm
              intro hmem
              exact absurd hmem hnm
            | ok pr =>
              obtain ⟨tid, cid⟩ := pr
              dsimp only
              dsimp only at hnm
              cases hins : oracle.insertUserMsgErr with
              | some m =>
                dsimp only
                intro hmem
                exact absurd hmem hnm
              | none =>
                dsimp only
                cases hamo : oracle.addMessageOk with
                | false =>
                  rw [if_pos (by decide)]
                  intro hmem
                  simp_all [List.mem_append]
                | true =>
                  rw [if_neg (by decide)]
                  cases haid : env.excursionCreatorAssistantId with
                  | none =>
                    dsimp only
                    intro hmem
                    simp_all [List.mem_append]
                  | some aid =>
                    dsimp only
                    by_cases haid2 : (aid == "") = true
                    · rw [if_pos haid2]
                      intro hmem
                      simp_all [List.mem_append]
                    · rw [if_neg haid2]
                      cases hcrr : oracle.createRunResp with
                      | none =>
                        dsimp only
                        intro hmem
                        simp_all [List.mem_append]
                      | some rp =>
                        obtain ⟨runId, initStatus⟩ := rp
                        dsimp only
                        cases hpl : (pollLoop oracle.pollResp initStatus).1 with
                        | completedOk =>
                          intro hmem
                          rw [retrieveAndPersistReply_events] at hmem
                          simp_all [List.mem_append, List.mem_replicate]
                        | terminalFailure s =>
                          intro hmem
                          simp_all [List.mem_append, List.mem_replicate]
                        | checkFailed =>
                          intro hmem
                          simp_all [List.mem_append, List.mem_replicate]
                        | timedOut =>
                          intro hmem
                          simp_all [List.mem_append, List.mem_replicate]

theorem healthCoachCore_after_insert (req : RawRequest) (env : Env)
    (oracle : RemoteOracle) (db : DBState) (uid tid cid : String)
    (db1 : DBState) (tr1 : List RemoteEvent)
    (ha : strTruthy req.authHeader = true)
    (hu : oracle.getUserResp = some uid)
    (hmsg : (req.message == "") = false)
    (hk : strTruthy env.openaiApiKey = true)
    (hres : resolveConversation oracle uid "health_coach"
        req.conversationId db = (.ok (tid, cid), db1, tr1))
    (hins : oracle.insertUserMsgErr = none) :
    (healthCoachCore req env oracle db).2.1.conversations
        = db1.conversations
    ∧ (healthCoachCore req env oracle db).2.1.messages.filter
        (fun r => r.role == "user")
      = db1.messages.filter (fun r => r.role == "user")
          ++ [⟨cid, "user", req.message⟩]
    ∧ ∃ rest, (healthCoachCore req env oracle db).2.2
        = tr1 ++ RemoteEvent.appendMessage tid req.message :: rest := by
  simp only [healthCoachCore]
  simp only [ha, hu, hmsg, hk, hres, hins, Bool.not_true,
    Bool.false_eq_true, if_false]
  repeat' split
  all_goals
    refine ⟨by simp [retrieveAndPersistReply_conversations], ?_, ?_⟩
  all_goals
    simp [retrieveAndPersistReply_filter_user, List.filter_append,
      retrieveAndPersistReply_events]

theorem excursionCore_after_insert (req : RawRequest) (env : Env)
    (oracle : RemoteOracle) (db : DBState) (uid tid cid : String)
    (db1 : DBState) (tr1 : List RemoteEvent)
    (ha : strTruthy req.authHeader = true)
    (hu : oracle.getUserResp = some uid)
    (hmsg : (req.message == "") = false)
    (hk : strTruthy env.openaiApiKey = true)
    (hres : resolveConversation oracle uid "excursion_creator"
        req.conversationId db = (.ok (tid, cid), db1, tr1))
    (hins : oracle.insertUserMsgErr = none) :
    (excursionCore req env oracle db).2.1.conversations
        = db1.conversations
    ∧ (excursionCore req env oracle db).2.1.messages.filter
        (fun r => r.role == "user")
      = db1.messages.filter (fun r => r.role == "user")
          ++ [⟨cid, "user", req.message⟩]
    ∧ ∃ rest, (excursionCore req env oracle db).2.2
        = tr1 ++ RemoteEvent.appendMessage tid
            (enrichMessage req.message req.userContext) :: rest := by
  simp only [excursionCore]
  simp only [ha, hu, hmsg, hk, hres, hins, Bool.not_true,
    Bool.false_eq_true, if_false]
  repeat' split
  all_goals
    refine ⟨by simp [retrieveAndPersistReply_conversations], ?_, ?_⟩
  all_goals
    simp [retrieveAndPersistReply_filter_user, List.filter_append,
      retrieveAndPersistReply_events]

end NatureUp

namespace NatureUp

/-- Claim C1: the Run Poller performs at most 30 status polls in every
run; for a run whose status never becomes `completed`, `failed`,
`cancelled` or `expired`, exactly 30 polls are performed and the
health-coach orchestrator then fails with HTTP 500 and message
`Assistant run timed out` — the poll loop always terminates. -/
theorem c1_run_poller_bounded_timeout :
    (∀ (poll : Nat → Option String) (s : String),
        (pollLoop poll s).2 ≤ maxAttempts)
    ∧ (∀ (poll : Nat → Option String) (s : String),
        s ≠ "completed" →
        (∀ i, i < maxAttempts →
          ∃ s', poll i = some s' ∧ nonTerminalStatus s') →
        pollLoop poll s = (.timedOut, maxAttempts))
    ∧ (∀ (req : RawRequest) (env : Env) (oracle : RemoteOracle)
        (db : DBState) (uid tid cid aid runId s0 : String)
        (db1 : DBState) (tr1 : List RemoteEvent),
        req.method = "POST" →
        strTruthy req.authHeader = true →
        oracle.getUserResp = some uid →
        req.message ≠ "" →
        strTruthy env.openaiApiKey = true →
        resolveConversation oracle uid "health_coach" req.conversationId db
          = (.ok (tid, cid), db1, tr1) →
        oracle.insertUserMsgErr = none →
        oracle.addMessageOk = true →
        env.healthCoachAssistantId = some aid →
        aid ≠ "" →
        oracle.createRunResp = some (runId, s0) →
        s0 ≠ "completed" →
        (∀ i, i < maxAttempts →
          ∃ s', oracle.pollResp i = some s' ∧ nonTerminalStatus s') →
        healthCoachServe req env oracle db =
          ⟨⟨500, .error "Assistant run timed out"⟩,
           { db1 with messages :=
               db1.messages ++ [⟨cid, "user", req.message⟩] },
           tr1 ++ [.appendMessage tid req.message]
             ++ [.createRun tid aid]
             ++ List.replicate maxAttempts (.pollStatus tid runId)⟩) := by
  refine ⟨?_, ?_, ?_⟩
  · intro poll s
    exact pollLoopAux_count_le poll maxAttempts s 0
  · intro poll s hs hpoll
    exact pollLoopAux_timeout poll maxAttempts s 0 hs (by simpa using hpoll)
  · intro req env oracle db uid tid cid aid runId s0 db1 tr1
      hm ha hu hmsg hk hres hins happ haid haid2 hrun hs0 hpoll
    have hpl : pollLoop oracle.pollResp s0 = (.timedOut, maxAttempts) :=
      pollLoopAux_timeout oracle.pollResp maxAttempts s0 0 hs0
        (by simpa using hpoll)
    have hmb : (req.message == "") = false := by simp [hmsg]
    have hmethod : (req.method == "OPTIONS") = false := by simp [hm]
    have haidb : (aid == "") = false := by simp [haid2]
    simp [healthCoachServe, healthCoachCore, hmethod, ha, hu, hmb, hk,
      hres, hins, happ, haid, haidb, hrun, hpl]

theorem c1_run_poller_bounded_timeout_witness :
    (healthCoachServe req0 env0 oracleTimeout db0).resp
      = ⟨500, .error "Assistant run timed out"⟩
    ∧ (healthCoachServe req0 env0 oracleTimeout db0).events
      = [.createThread, .appendMessage "t1" "hi", .createRun "t1" "asst-hc"]
          ++ List.replicate 30 (.pollStatus "t1" "r1") := by
  have h := c1_run_poller_bounded_timeout.2.2 req0 env0 oracleTimeout db0
    "u1" "t1" "c1" "asst-hc" "r1" "queued"
    ⟨[⟨"c1", "u1", "health_coach", "t1"⟩], []⟩ [.createThread]
    rfl rfl rfl (by decide) rfl rfl rfl rfl rfl (by decide) rfl (by decide)
    (fun i _ => ⟨"in_progress", rfl, by decide⟩)
  rw [h]
  exact ⟨rfl, rfl⟩

/-- Claim C2: a poll that returns `failed`, `cancelled` or `expired`
terminates the loop at once — that iteration is the last poll — and the
excursion orchestrator fails with HTTP 500 carrying
`Assistant run <status>`. -/
theorem c2_terminal_status_stops_polling :
    (∀ (poll : Nat → Option String) (fuel : Nat) (s : String) (a : Nat)
        (t : String),
        s ≠ "completed" → poll a = some t →
        (t = "failed" ∨ t = "cancelled" ∨ t = "expired") →
        pollLoopAux poll (fuel + 1) s a = (.terminalFailure t, 1))
    ∧ (∀ (req : RawRequest) (env : Env) (oracle : RemoteOracle)
        (db : DBState) (uid tid cid aid runId s0 t : String)
        (db1 : DBState) (tr1 : List RemoteEvent),
        req.method = "POST" →
        strTruthy req.authHeader = true →
        oracle.getUserResp = some uid →
        req.message ≠ "" →
        strTruthy env.openaiApiKey = true →
        resolveConversation oracle uid "excursion_creator"
            req.conversationId db = (.ok (tid, cid), db1, tr1) →
        oracle.insertUserMsgErr = none →
        oracle.addMessageOk = true →
        env.excursionCreatorAssistantId = some aid →
        aid ≠ "" →
        oracle.createRunResp = some (runId, s0) →
        s0 ≠ "completed" →
        oracle.pollResp 0 = some t →
        (t = "failed" ∨ t = "cancelled" ∨ t = "expired") →
        excursionServe req env oracle db =
          ⟨⟨500, .error ("Assistant run " ++ t)⟩,
           { db1 with messages :=
               db1.messages ++ [⟨cid, "user", req.message⟩] },
           tr1 ++ [.appendMessage tid
               (enrichMessage req.message req.userContext)]
             ++ [.createRun tid aid]
             ++ List.replicate 1 (.pollStatus tid runId)⟩) := by
  constructor
  · intro poll fuel s a t hs hp ht
    exact pollLoopAux_terminal poll fuel s a t hs hp ht
  · intro req env oracle db uid tid cid aid runId s0 t db1 tr1
      hm ha hu hmsg hk hres hins happ haid haid2 hrun hs0 hp0 ht
    have h30 : maxAttempts = 29 + 1 := rfl
    have hpl : pollLoop oracle.pollResp s0 = (.terminalFailure t, 1) := by
      unfold pollLoop
      rw [h30]
      exact pollLoopAux_terminal oracle.pollResp 29 s0 0 t hs0 hp0 ht
    have hmb : (req.message == "") = false := by simp [hmsg]
    have hmethod : (req.method == "OPTIONS") = false := by simp [hm]
    have haidb : (aid == "") = false := by simp [haid2]
    simp [excursionServe, excursionCore, hmethod, ha, hu, hmb, hk,
      hres, hins, happ, haid, haidb, hrun, hpl]

theorem c2_terminal_status_stops_polling_witness :
    (excursionServe req0 env0 oracleTerminal db0).resp
      = ⟨500, .error ("Assistant run " ++ "failed")⟩
    ∧ (excursionServe req0 env0 oracleTerminal db0).events
      = [.createThread, .appendMessage "t1" "hi", .createRun "t1" "asst-ex"]
          ++ List.replicate 1 (.pollStatus "t1" "r1") := by
  have h := c2_terminal_status_stops_polling.2 req0 env0 oracleTerminal db0
    "u1" "t1" "c1" "asst-ex" "r1" "queued" "failed"
    ⟨[⟨"c1", "u1", "excursion_creator", "t1"⟩], []⟩ [.createThread]
    rfl rfl rfl (by decide) rfl rfl rfl rfl rfl (by decide) rfl (by decide)
    rfl (Or.inl rfl)
  rw [h]
  exact ⟨rfl, rfl⟩

/-- Claim C3: when the remote append-message call fails, both
orchestrators have already persisted the inbound `user` row (exactly the
request message, not rolled back), persist no `assistant` row, and fail
with HTTP 500 `Failed to add message to thread`. -/
theorem c3_append_failure_keeps_user_message :
    ∀ (req : RawRequest) (env : Env) (oracle : RemoteOracle)
      (db : DBState) (uid : String),
      req.method = "POST" →
      strTruthy req.authHeader = true →
      oracle.getUserResp = some uid →
      req.message ≠ "" →
      strTruthy env.openaiApiKey = true →
      oracle.insertUserMsgErr = none →
      oracle.addMessageOk = false →
      (∀ (tid cid : String) (db1 : DBState) (tr1 : List RemoteEvent),
        resolveConversation oracle uid "health_coach" req.conversationId db
          = (.ok (tid, cid), db1, tr1) →
        healthCoachServe req env oracle db =
          ⟨⟨500, .error "Failed to add message to thread"⟩,
           ⟨db1.conversations, db.messages ++ [⟨cid, "user", req.message⟩]⟩,
           tr1 ++ [.appendMessage tid req.message]⟩
        ∧ (healthCoachServe req env oracle db).db.messages.filter
            (fun r => r.role == "assistant")
          = db.messages.filter (fun r => r.role == "assistant"))
      ∧ (∀ (tid cid : String) (db1 : DBState) (tr1 : List RemoteEvent),
        resolveConversation oracle uid "excursion_creator"
            req.conversationId db = (.ok (tid, cid), db1, tr1) →
        excursionServe req env oracle db =
          ⟨⟨500, .error "Failed to add message to thread"⟩,
           ⟨db1.conversations, db.messages ++ [⟨cid, "user", req.message⟩]⟩,
           tr1 ++ [.appendMessage tid
             (enrichMessage req.message req.userContext)]⟩
        ∧ (excursionServe req env oracle db).db.messages.filter
            (fun r => r.role == "assistant")
          = db.messages.filter (fun r => r.role == "assistant")) := by
  intro req env oracle db uid hm ha hu hmsg hk hins happ
  have hmb : (req.message == "") = false := by simp [hmsg]
  have hmethod : (req.method == "OPTIONS") = false := by simp [hm]
  constructor
  · intro tid cid db1 tr1 hres
    have hmsgs : db1.messages = db.messages := by
      have h := resolveConversation_messages_eq oracle uid "health_coach"
        req.conversationId db
      rw [hres] at h
      simpa using h
    have hserve : healthCoachServe req env oracle db =
        ⟨⟨500, .error "Failed to add message to thread"⟩,
         ⟨db1.conversations, db.messages ++ [⟨cid, "user", req.message⟩]⟩,
         tr1 ++ [.appendMessage tid req.message]⟩ := by
      simp [healthCoachServe, healthCoachCore, hmethod, ha, hu, hmb, hk,
        hres, hins, happ, hmsgs]
    refine ⟨hserve, ?_⟩
    rw [hserve]
    simp
  · intro tid cid db1 tr1 hres
    have hmsgs : db1.messages = db.messages := by
      have h := resolveConversation_messages_eq oracle uid
        "excursion_creator" req.conversationId db
      rw [hres] at h
      simpa using h
    have hserve : excursionServe req env oracle db =
        ⟨⟨500, .error "Failed to add message to thread"⟩,
         ⟨db1.conversations, db.messages ++ [⟨cid, "user", req.message⟩]⟩,
         tr1 ++ [.appendMessage tid
           (enrichMessage req.message req.userContext)]⟩ := by
      simp [excursionServe, excursionCore, hmethod, ha, hu, hmb, hk,
        hres, hins, happ, hmsgs]
    refine ⟨hserve, ?_⟩
    rw [hserve]
    simp

theorem c3_append_failure_keeps_user_message_witness :
    healthCoachServe req0 env0 oracleAppendFail db0 =
      ⟨⟨500, .error "Failed to add message to thread"⟩,
       ⟨[⟨"c1", "u1", "health_coach", "t1"⟩], [⟨"c1", "user", "hi"⟩]⟩,
       [.createThread, .appendMessage "t1" "hi"]⟩ := by
  have h := (c3_append_failure_keeps_user_message req0 env0 oracleAppendFail
    db0 "u1" rfl rfl rfl (by decide) rfl rfl rfl).1 "t1" "c1"
    ⟨[⟨"c1", "u1", "health_coach", "t1"⟩], []⟩ [.createThread] rfl
  exact h.1

/-- Claim C4: on the excursion endpoint, a request carrying a user
context persists the `user` row with exactly the original message; the
enrichment annotation reaches only the text appended to the remote
thread, and whenever the context has a populated field the appended
text differs from the stored one. -/
theorem c4_enrichment_only_remote_bound :
    ∀ (req : RawRequest) (env : Env) (oracle : RemoteOracle) (db : DBState)
      (uid : String) (uc : UserContext) (tid cid : String) (db1 : DBState)
      (tr1 : List RemoteEvent),
      req.method = "POST" →
      strTruthy req.authHeader = true →
      oracle.getUserResp = some uid →
      req.message ≠ "" →
      strTruthy env.openaiApiKey = true →
      req.userContext = some uc →
      resolveConversation oracle uid "excursion_creator"
          req.conversationId db = (.ok (tid, cid), db1, tr1) →
      oracle.insertUserMsgErr = none →
      (excursionServe req env oracle db).db.messages.filter
          (fun r => r.role == "user")
        = db.messages.filter (fun r => r.role == "user")
            ++ [⟨cid, "user", req.message⟩]
      ∧ (∀ t c, RemoteEvent.appendMessage t c
            ∈ (excursionServe req env oracle db).events →
          c = enrichMessage req.message (some uc))
      ∧ (0 < (contextInfo uc).length →
          enrichMessage req.message (some uc) ≠ req.message) := by
  intro req env oracle db uid uc tid cid db1 tr1 hm ha hu hmsg hk huc hres hins
  have hmethod : (req.method == "OPTIONS") = false := by simp [hm]
  have hmb : (req.message == "") = false := by simp [hmsg]
  have hdb1 : db1.messages = db.messages := by
    have h := resolveConversation_messages_eq oracle uid "excursion_creator"
      req.conversationId db
    rw [hres] at h
    simpa using h
  obtain ⟨hconv, hfilter, hrest⟩ := excursionCore_after_insert req env oracle
    db uid tid cid db1 tr1 ha hu hmb hk hres hins
  refine ⟨?_, ?_, ?_⟩
  · rw [excursionServe_db req env oracle db hmethod, hfilter, hdb1]
  · intro t c hmem
    rw [excursionServe_events req env oracle db hmethod] at hmem
    have hc := excursionCore_append_content req env oracle db t c hmem
    rw [hc, huc]
  · intro hpos heq
    have h2 : enrichMessage req.message (some uc)
        = req.message ++ "\n\nUser Context:\n"
            ++ String.intercalate "\n" (contextInfo uc) := by
      simp [enrichMessage, hpos]
    rw [h2] at heq
    have hlen := congrArg String.length heq
    rw [String.length_append, String.length_append] at hlen
    have h17 : 0 < ("\n\nUser Context:\n" : String).length := by decide
    omega

theorem c4_enrichment_only_remote_bound_witness :
    (excursionServe reqCtx env0 oracleHappy db0).db.messages.filter
        (fun r => r.role == "user")
      = [⟨"c1", "user", "Plan a beach day"⟩]
    ∧ "Plan a beach day\n\nUser Context:\nLocation: Santa Monica"
        = enrichMessage reqCtx.message (some uc0)
    ∧ enrichMessage reqCtx.message (some uc0) ≠ reqCtx.message := by
  have h := c4_enrichment_only_remote_bound reqCtx env0 oracleHappy db0
    "u1" uc0 "t1" "c1" ⟨[⟨"c1", "u1", "excursion_creator", "t1"⟩], []⟩
    [.createThread] rfl rfl rfl (by decide) rfl rfl rfl rfl
  refine ⟨?_, ?_, ?_⟩
  · have h1 := h.1
    simpa using h1
  · exact h.2.1 "t1"
      "Plan a beach day\n\nUser Context:\nLocation: Santa Monica" (by decide)
  · exact h.2.2 (by decide)

/-- Claim C5: a supplied conversation id with no matching row owned by
the caller (nonexistent, or owned by another user) makes the
orchestrator create a new remote thread and a new conversation record
owned by the caller, and the turn proceeds against the new thread
(first the create-thread call, then the append to the new thread). -/
theorem c5_unowned_conversation_creates_new :
    (∀ (oracle : RemoteOracle) (uid assistantType cid tid nid : String)
        (db : DBState),
      cid ≠ "" →
      (∀ c ∈ db.conversations, ¬(c.id = cid ∧ c.user_id = uid)) →
      oracle.convQueryError = none →
      oracle.createThreadResp = some tid →
      oracle.insertConvResp = .ok nid →
      resolveConversation oracle uid assistantType (some cid) db =
        (.ok (tid, nid),
         { db with conversations :=
             db.conversations ++ [⟨nid, uid, assistantType, tid⟩] },
         [.createThread]))
    ∧ (∀ (req : RawRequest) (env : Env) (oracle : RemoteOracle)
        (db : DBState) (uid cid tid nid : String),
      req.method = "POST" →
      strTruthy req.authHeader = true →
      oracle.getUserResp = some uid →
      req.message ≠ "" →
      strTruthy env.openaiApiKey = true →
      req.conversationId = some cid →
      cid ≠ "" →
      (∀ c ∈ db.conversations, ¬(c.id = cid ∧ c.user_id = uid)) →
      oracle.convQueryError = none →
      oracle.createThreadResp = some tid →
      oracle.insertConvResp = .ok nid →
      oracle.insertUserMsgErr = none →
      (healthCoachServe req env oracle db).db.conversations
        = db.conversations ++ [⟨nid, uid, "health_coach", tid⟩]
      ∧ (healthCoachServe req env oracle db).events.take 2
        = [.createThread, .appendMessage tid req.message]) := by
  constructor
  · intro oracle uid assistantType cid tid nid db hcid hnone hq hth hic
    exact resolveConversation_fallback_create oracle uid assistantType cid
      tid nid db hcid hnone hq hth hic
  · intro req env oracle db uid cid tid nid hm ha hu hmsg hk hrc hcid hnone
      hq hth hic hins
    have hmethod : (req.method == "OPTIONS") = false := by simp [hm]
    have hmb : (req.message == "") = false := by simp [hmsg]
    have hres : resolveConversation oracle uid "health_coach"
        req.conversationId db =
        (.ok (tid, nid),
         { db with conversations :=
             db.conversations ++ [⟨nid, uid, "health_coach", tid⟩] },
         [.createThread]) := by
      rw [hrc]
      exact resolveConversation_fallback_create oracle uid "health_coach"
        cid tid nid db hcid hnone hq hth hic
    obtain ⟨hconv, _, rest, hrest⟩ := healthCoachCore_after_insert req env
      oracle db uid tid nid
      { db with conversations :=
          db.conversations ++ [⟨nid, uid, "health_coach", tid⟩] }
      [.createThread] ha hu hmb hk hres hins
    constructor
    · rw [healthCoachServe_db req env oracle db hmethod, hconv]
    · rw [healthCoachServe_events req env oracle db hmethod, hrest]
      simp

theorem c5_unowned_conversation_creates_new_witness :
    resolveConversation oracleHappy "u1" "health_coach" (some "c9") dbOther
      = (.ok ("t1", "c1"),
         ⟨[⟨"c9", "mallory", "health_coach", "t9"⟩,
           ⟨"c1", "u1", "health_coach", "t1"⟩], []⟩,
         [.createThread])
    ∧ (healthCoachServe reqConv env0 oracleHappy dbOther).db.conversations
      = [⟨"c9", "mallory", "health_coach", "t9"⟩,
         ⟨"c1", "u1", "health_coach", "t1"⟩]
    ∧ (healthCoachServe reqConv env0 oracleHappy dbOther).events.take 2
      = [.createThread, .appendMessage "t1" "hi"] := by
  have h1 := c5_unowned_conversation_creates_new.1 oracleHappy "u1"
    "health_coach" "c9" "t1" "c1" dbOther (by decide) (by decide) rfl rfl rfl
  have h2 := c5_unowned_conversation_creates_new.2 reqConv env0 oracleHappy
    dbOther "u1" "c9" "t1" "c1" rfl rfl rfl (by decide) rfl rfl (by decide)
    (by decide) rfl rfl rfl rfl
  exact ⟨h1, h2.1, h2.2⟩

/-- Claim C6: both endpoints only ever return status 200 or status 500,
and status 500 appears exactly when the body is the JSON error envelope
carrying a human-readable message. -/
theorem c6_errors_normalized_to_500 :
    ∀ (req : RawRequest) (env : Env) (oracle : RemoteOracle)
      (db : DBState),
      ((healthCoachServe req env oracle db).resp.status = 200 ∨
        (healthCoachServe req env oracle db).resp.status = 500)
      ∧ ((healthCoachServe req env oracle db).resp.status = 500 ↔
          ∃ m, (healthCoachServe req env oracle db).resp.body = .error m)
      ∧ ((excursionServe req env oracle db).resp.status = 200 ∨
        (excursionServe req env oracle db).resp.status = 500)
      ∧ ((excursionServe req env oracle db).resp.status = 500 ↔
          ∃ m, (excursionServe req env oracle db).resp.body = .error m) := by
  intro req env oracle db
  have h1 : ∀ o : ServeOutcome,
      healthCoachServe req env oracle db = o →
      (o.resp.status = 200 ∨ o.resp.status = 500) ∧
      (o.resp.status = 500 ↔ ∃ m, o.resp.body = .error m) := by
    intro o ho
    unfold healthCoachServe at ho
    by_cases hm : (req.method == "OPTIONS") = true
    · rw [if_pos hm] at ho
      subst ho
      simp
    · rw [if_neg hm] at ho
      rcases h : healthCoachCore req env oracle db with ⟨r, db1, tr⟩
      rw [h] at ho
      cases r <;> subst ho <;> simp
  have h2 : ∀ o : ServeOutcome,
      excursionServe req env oracle db = o →
      (o.resp.status = 200 ∨ o.resp.status = 500) ∧
      (o.resp.status = 500 ↔ ∃ m, o.resp.body = .error m) := by
    intro o ho
    unfold excursionServe at ho
    by_cases hm : (req.method == "OPTIONS") = true
    · rw [if_pos hm] at ho
      subst ho
      simp
    · rw [if_neg hm] at ho
      rcases h : excursionCore req env oracle db with ⟨r, db1, tr⟩
      rw [h] at ho
      cases r <;> subst ho <;> simp
  obtain ⟨a1, a2⟩ := h1 _ rfl
  obtain ⟨b1, b2⟩ := h2 _ rfl
  exact ⟨a1, a2, b1, b2⟩

/-- Claim C7: an authenticated request with an empty (or missing)
message fails with `Message is required` before conversation
resolution: the store is unchanged and no remote assistant call is
made, on both endpoints. -/
theorem c7_empty_message_rejected_before_effects :
    ∀ (req : RawRequest) (env : Env) (oracle : RemoteOracle)
      (db : DBState) (uid : String),
      req.method = "POST" →
      strTruthy req.authHeader = true →
      oracle.getUserResp = some uid →
      req.message = "" →
      healthCoachServe req env oracle db =
        ⟨⟨500, .error "Message is required"⟩, db, []⟩
      ∧ excursionServe req env oracle db =
        ⟨⟨500, .error "Message is required"⟩, db, []⟩ := by
  intro req env oracle db uid hm ha hu hmsg
  have hmethod : (req.method == "OPTIONS") = false := by simp [hm]
  constructor
  · simp [healthCoachServe, healthCoachCore, hmethod, ha, hu, hmsg]
  · simp [excursionServe, excursionCore, hmethod, ha, hu, hmsg]

theorem c7_empty_message_rejected_before_effects_witness :
    healthCoachServe reqEmpty env0 oracleHappy db0 =
      ⟨⟨500, .error "Message is required"⟩, db0, []⟩
    ∧ excursionServe reqEmpty env0 oracleHappy db0 =
      ⟨⟨500, .error "Message is required"⟩, db0, []⟩ :=
  c7_empty_message_rejected_before_effects reqEmpty env0 oracleHappy db0
    "u1" rfl rfl rfl rfl

/-- Claim C8: the client SDK's conversation listing is ordered by
`updated_at` descending and, when an assistant type is supplied,
contains exactly the rows of that type; its message listing for a
conversation is ordered by `created_at` ascending and contains exactly
that conversation's rows. -/
theorem c8_sdk_list_ordering :
    (∀ (rows : List Conversation) (t : String),
      List.Sorted (fun a b => b.updated_at ≤ a.updated_at)
        (getConversations rows (some t))
      ∧ List.Perm (getConversations rows (some t))
          (rows.filter (fun c => c.assistant_type == t))
      ∧ (getConversations rows (some t)).all
          (fun c => c.assistant_type == t) = true)
    ∧ (∀ rows : List Conversation,
      List.Sorted (fun a b => b.updated_at ≤ a.updated_at)
        (getConversations rows none)
      ∧ List.Perm (getConversations rows none) rows)
    ∧ (∀ (rows : List StoredMessage) (cid : String),
      List.Sorted (fun a b => a.created_at ≤ b.created_at)
        (getMessages rows cid)
      ∧ List.Perm (getMessages rows cid)
          (rows.filter (fun m => m.conversation_id == cid))
      ∧ (getMessages rows cid).all
          (fun m => m.conversation_id == cid) = true) := by
  refine ⟨?_, ?_, ?_⟩
  · intro rows t
    refine ⟨?_, ?_, ?_⟩
    · simp only [getConversations]
      exact List.sorted_insertionSort _ _
    · simp only [getConversations]
      exact List.perm_insertionSort _ _
    · rw [List.all_eq_true]
      intro c hc
      have hc' : c ∈ rows.filter (fun c => c.assistant_type == t) := by
        simpa [getConversations] using hc
      exact (List.mem_filter.mp hc').2
  · intro rows
    refine ⟨?_, ?_⟩
    · simp only [getConversations]
      exact List.sorted_insertionSort _ _
    · simp only [getConversations]
      exact List.perm_insertionSort _ _
  · intro rows cid
    refine ⟨?_, ?_, ?_⟩
    · simp only [getMessages]
      exact List.sorted_insertionSort _ _
    · simp only [getMessages]
      exact List.perm_insertionSort _ _
    · rw [List.all_eq_true]
      intro m hm
      have hm' : m ∈ rows.filter (fun m => m.conversation_id == cid) := by
        simpa [getMessages] using hm
      exact (List.mem_filter.mp hm').2

/-- Claim C9: the terminal-failure check applies only to polled
statuses: a create-run response of `completed` succeeds with zero
polls, while an initial `failed`/`cancelled`/`expired` still enters the
loop, performs at least one poll, and is judged by the newly polled
status — an initial terminal status followed by a polled `completed`
succeeds after exactly one poll, and on the happy path with an initial
`completed` the health-coach endpoint returns 200 with no status-poll
events. -/
theorem c9_initial_status_unchecked :
    (∀ poll : Nat → Option String,
        pollLoop poll "completed" = (.completedOk, 0))
    ∧ (∀ (poll : Nat → Option String) (s0 : String),
        (s0 = "failed" ∨ s0 = "cancelled" ∨ s0 = "expired") →
        1 ≤ (pollLoop poll s0).2)
    ∧ (∀ (poll : Nat → Option String) (s0 : String),
        (s0 = "failed" ∨ s0 = "cancelled" ∨ s0 = "expired") →
        poll 0 = some "completed" →
        pollLoop poll s0 = (.completedOk, 1))
    ∧ (∀ (req : RawRequest) (env : Env) (oracle : RemoteOracle)
        (db : DBState) (uid tid cid aid runId : String)
        (db1 : DBState) (tr1 : List RemoteEvent)
        (msgs : List RemoteMsg) (am : RemoteMsg) (tc : ContentPart),
        req.method = "POST" →
        strTruthy req.authHeader = true →
        oracle.getUserResp = some uid →
        req.message ≠ "" →
        strTruthy env.openaiApiKey = true →
        resolveConversation oracle uid "health_coach" req.conversationId db
          = (.ok (tid, cid), db1, tr1) →
        oracle.insertUserMsgErr = none →
        oracle.addMessageOk = true →
        env.healthCoachAssistantId = some aid →
        aid ≠ "" →
        oracle.createRunResp = some (runId, "completed") →
        oracle.listMessagesResp = some msgs →
        msgs.find? (fun m => m.role == "assistant") = some am →
        am.content.find? (fun c => c.ctype == "text") = some tc →
        oracle.insertAsstMsgErr = none →
        healthCoachServe req env oracle db =
          ⟨⟨200, .success tc.text cid tid⟩,
           { db1 with messages := db1.messages
               ++ [⟨cid, "user", req.message⟩,
                   ⟨cid, "assistant", tc.text⟩] },
           tr1 ++ [.appendMessage tid req.message]
             ++ [.createRun tid aid] ++ [.listMessages tid]⟩) := by
  refine ⟨?_, ?_, ?_, ?_⟩
  · intro poll
    rfl
  · intro poll s0 ht
    have h30 : maxAttempts = 29 + 1 := rfl
    have hb : (s0 == "completed") = false := by
      rcases ht with h | h | h <;> simp [h]
    unfold pollLoop
    rw [h30]
    unfold pollLoopAux
    simp only [hb, Bool.false_eq_true, if_false]
    cases hp : poll 0 with
    | none => simp
    | some s' =>
      simp only
      split
      · simp
      · simp
  · intro poll s0 ht hp
    have h30 : maxAttempts = 29 + 1 := rfl
    have hb : (s0 == "completed") = false := by
      rcases ht with h | h | h <;> simp [h]
    unfold pollLoop
    rw [h30]
    unfold pollLoopAux
    simp [hb, hp, pollLoopAux_completed]
  · intro req env oracle db uid tid cid aid runId db1 tr1 msgs am tc
      hm ha hu hmsg hk hres hins happ haid haid2 hrun hlist hfind htc hasst
    have hpl : pollLoop oracle.pollResp "completed" = (.completedOk, 0) := rfl
    have hmb : (req.message == "") = false := by simp [hmsg]
    have hmethod : (req.method == "OPTIONS") = false := by simp [hm]
    have haidb : (aid == "") = false := by simp [haid2]
    simp [healthCoachServe, healthCoachCore, retrieveAndPersistReply,
      hmethod, ha, hu, hmb, hk, hres, hins, happ, haid, haidb, hrun, hpl,
      hlist, hfind, htc, hasst]

theorem c9_initial_status_unchecked_witness :
    1 ≤ (pollLoop (fun _ => some "in_progress") "failed").2
    ∧ pollLoop (fun _ => some "completed") "cancelled" = (.completedOk, 1)
    ∧ (healthCoachServe req0 env0 oracleRunDone db0).resp
        = ⟨200, .success "hello!" "c1" "t1"⟩
    ∧ (healthCoachServe req0 env0 oracleRunDone db0).events
        = [.createThread, .appendMessage "t1" "hi",
           .createRun "t1" "asst-hc", .listMessages "t1"] := by
  have hb := c9_initial_status_unchecked.2.1 (fun _ => some "in_progress")
    "failed" (Or.inl rfl)
  have hc := c9_initial_status_unchecked.2.2.1 (fun _ => some "completed")
    "cancelled" (Or.inr (Or.inl rfl)) rfl
  have hd := c9_initial_status_unchecked.2.2.2 req0 env0 oracleRunDone db0
    "u1" "t1" "c1" "asst-hc" "r1"
    ⟨[⟨"c1", "u1", "health_coach", "t1"⟩], []⟩ [.createThread]
    [⟨"assistant", [⟨"text", "hello!"⟩]⟩] ⟨"assistant", [⟨"text", "hello!"⟩]⟩
    ⟨"text", "hello!"⟩
    rfl rfl rfl (by decide) rfl rfl rfl rfl rfl (by decide) rfl rfl rfl rfl
    rfl
  rw [hd] at *
  exact ⟨hb, hc, rfl, rfl⟩

/-- Claim C10: the health-coach endpoint ignores any user context in
the request body entirely: its outcome is invariant under the
`userContext` field, and every text it appends to the remote thread is
exactly the request message. -/
theorem c10_health_coach_ignores_user_context :
    (∀ (req : RawRequest) (env : Env) (oracle : RemoteOracle)
        (db : DBState) (uc uc' : Option UserContext),
      healthCoachServe { req with userContext := uc } env oracle db
        = healthCoachServe { req with userContext := uc' } env oracle db)
    ∧ (∀ (req : RawRequest) (env : Env) (oracle : RemoteOracle)
        (db : DBState) (t c : String),
      RemoteEvent.appendMessage t c
          ∈ (healthCoachServe req env oracle db).events →
      c = req.message) := by
  constructor
  · intro req env oracle db uc uc'
    cases req
    rfl
  · intro req env oracle db t c hmem
    by_cases hm : (req.method == "OPTIONS") = true
    · unfold healthCoachServe at hmem
      rw [if_pos hm] at hmem
      simp at hmem
    · rw [healthCoachServe_events req env oracle db (by simpa using hm)]
        at hmem
      exact healthCoachCore_append_content req env oracle db t c hmem

theorem c10_health_coach_ignores_user_context_witness :
    RemoteEvent.appendMessage "t1" "hi"
      ∈ (healthCoachServe req0 env0 oracleHappy db0).events
    ∧ "hi" = req0.message :=
  ⟨by decide,
   c10_health_coach_ignores_user_context.2 req0 env0 oracleHappy db0
     "t1" "hi" (by decide)⟩

end NatureUp
